import Mathlib

/-!
url-shortener: the two request handlers over the `links` table

A shallow embedding of `main.go` (the `POST /shorten` and `GET /:id` handlers)
and of the `links` schema created in `db.go`.

Modelling choices, each taken from the source:

* The table `links` is the list of its rows in insertion order.  `id TEXT
  PRIMARY KEY` makes an `INSERT` of an id that is already present fail with a
  constraint error; `clicks INTEGER DEFAULT 0` and `created_at DATETIME DEFAULT
  CURRENT_TIMESTAMP` fill the two columns the `INSERT` statement leaves out.
* Everything a handler does not compute itself is an explicit input: the text
  of the fresh UUID, the clock reading used for `created_at`, and, for every
  statement sent to the database, whether the storage layer errors on it
  (locked file, I/O error, ...).  A statement on which the storage layer
  errors changes no row.
* Strings are Lean strings.  The only string the handlers take apart is the
  UUID text, which is ASCII, so a byte index of Go is a character index here.
* The field `clicks` is the number stored in the column, a natural number.  The
  column is an SQLite `INTEGER`: `clicks + 1` is exact while the sum fits 64
  signed bits, the sum that overflows is the `REAL` 2^63, and adding 1 to that
  `REAL` rounds back to it.  So the number stored goes up by one until it is
  2^63 and stays there.
* A redirect is recorded as the call `c.Redirect(code, location)` the handler
  makes.  The `Location` header the HTTP library writes for that call (it
  rewrites a relative location and escapes some bytes) is not part of the
  embedding.
-/

namespace UrlShortener

/-! ## Data model (`db.go`) -/

/-- A row of the table `links`. -/
structure Link where
  id : String
  target : String
  clicks : Nat
  created_at : Nat
  deriving DecidableEq, Repr

/-- The table `links`: its rows, oldest first. -/
abbrev Store := List Link

/-- The primary-key column of the table. -/
def keys (db : Store) : List String := db.map Link.id

/-- The errors a database call can return to a handler. -/
inductive DbError where
  /-- The value `sql.ErrNoRows`: the query matched no row. -/
  | noRows
  /-- A violated `PRIMARY KEY` constraint. -/
  | conflict
  /-- Any other failure of the storage layer. -/
  | storage
  deriving DecidableEq, Repr

/-- What a handler writes to the client. -/
inductive Response where
  /-- The call `c.String(code, body)`. -/
  | text (code : Nat) (body : String)
  /-- The call `c.HTML(code, "index.html", gin.H{"title": .., "short": ..})`. -/
  | html (code : Nat) (title : String) (short : Option String)
  /-- The call `c.Redirect(code, location)`, with the `location` argument as given. -/
  | redirect (code : Nat) (location : String)
  /-- A run-time fault of the slice expression `[:8]` (slice bounds out of range). -/
  | sliceOutOfRange
  deriving DecidableEq, Repr

/-! ## The three SQL statements -/

/-- The statement `INSERT INTO links(id, target) VALUES(?, ?)`. -/
def execInsert (db : Store) (fails : Bool) (id target : String) (now : Nat) :
    Except DbError Store :=
  if fails then .error .storage
  else if db.any (fun l => l.id == id) then .error .conflict
  else .ok (db ++ [{ id := id, target := target, clicks := 0, created_at := now }])

/-- The query `SELECT target FROM links WHERE id = ?` followed by `Scan(&target)`. -/
def queryTarget (db : Store) (fails : Bool) (id : String) : Except DbError String :=
  if fails then .error .storage
  else match db.find? (fun l => l.id == id) with
    | none => .error .noRows
    | some l => .ok l.target

/-- The least number an SQLite `INTEGER` of 64 signed bits cannot hold, 2^63. -/
def clicksLimit : Nat := 9223372036854775808

/-- The SQL expression `clicks + 1` on the number `c` stored in the column.  Below
2^63 - 1 the sum is the integer `c + 1`; at 2^63 - 1 the integer sum overflows and
SQLite yields the `REAL` 2^63, which the column then keeps; adding 1 to that `REAL`
rounds back to 2^63, so from 2^63 on the number stored no longer moves. -/
def incrementClicks (c : Nat) : Nat := if c < clicksLimit then c + 1 else c

/-- The rows after `SET clicks = clicks + 1 WHERE id = ?` has been applied. -/
def bump (id : String) (db : Store) : Store :=
  db.map fun l => if l.id == id then { l with clicks := incrementClicks l.clicks } else l

/-- The statement `UPDATE links SET clicks = clicks + 1 WHERE id = ?`. -/
def execIncrement (db : Store) (fails : Bool) (id : String) : Except DbError Store :=
  if fails then .error .storage else .ok (bump id db)

/-- The statement `COMMIT`.  No transaction is open when the handler sends it (each
statement before it ran on its own), so it is refused and changes no row. -/
def execCommit (_db : Store) : Except DbError Store := .error .storage

/-! ## Identifier generation (`main.go`, line 48) -/

/-- The call `strings.ReplaceAll(s, "-", "")`: every `-` is dropped. -/
def removeDashes (s : String) : String := ⟨s.data.filter (fun c => c != '-')⟩

/-- The slice expression `s[:n]`; `none` is the out-of-range fault. -/
def sliceTo (s : String) (n : Nat) : Option String :=
  if n ≤ s.length then some ⟨s.data.take n⟩ else none

/-- The expression `strings.ReplaceAll(u, "-", "")[:8]` for a UUID text `u`. -/
def shortId (u : String) : Option String := sliceTo (removeDashes u) 8

/-- A hexadecimal digit. -/
def isHexDigit (c : Char) : Bool :=
  ('0' ≤ c && c ≤ '9') || ('a' ≤ c && c ≤ 'f') || ('A' ≤ c && c ≤ 'F')

/-- The positions of the separators in the text of a UUID. -/
def dashPositions : List Nat := [8, 13, 18, 23]

/-- The text form `xxxxxxxx-xxxx-xxxx-xxxx-xxxxxxxxxxxx`: 36 characters,
`-` at positions 8, 13, 18 and 23, a hexadecimal digit everywhere else. -/
def isCanonicalUUID (u : String) : Bool :=
  u.length == 36 &&
    (List.range 36).all fun i =>
      if dashPositions.contains i then u.data.getD i '?' == '-'
      else isHexDigit (u.data.getD i '?')

/-! ## The handlers (`main.go`) -/

/-- What `POST /shorten` takes from outside the program. -/
structure ShortenEnv where
  /-- The text `uuid.New().String()`. -/
  uuid : String
  /-- The clock reading behind `CURRENT_TIMESTAMP`. -/
  now : Nat
  /-- Whether the storage layer errors on the `INSERT`. -/
  insertFails : Bool
  deriving DecidableEq, Repr

/-- What `GET /:id` takes from outside the program. -/
structure ResolveEnv where
  /-- Whether the storage layer errors on the `SELECT`. -/
  selectFails : Bool
  /-- Whether the storage layer errors on the `UPDATE`. -/
  updateFails : Bool
  deriving DecidableEq, Repr

/-- The page rendered after a successful `POST /shorten` that stored `id`. -/
def shortened (id : String) : Response :=
  .html 200 "done!" (some ("http://localhost:8080/" ++ id))

/-- The handler of `POST /shorten`, with `target` the form field `url`. -/
def shorten (db : Store) (env : ShortenEnv) (target : String) : Response × Store :=
  if target == "" then (.text 400 "no url", db)
  else match shortId env.uuid with
    | none => (.sliceOutOfRange, db)
    | some id =>
      match execInsert db env.insertFails id target env.now with
      | .error _ => (.text 500 "db, error", db)
      | .ok db1 =>
        let db2 := match execCommit db1 with
          | .ok d => d
          | .error _ => db1
        (shortened id, db2)

/-- The handler of `GET /:id`. -/
def resolve (db : Store) (env : ResolveEnv) (id : String) : Response × Store :=
  match queryTarget db env.selectFails id with
  | .error _ => (.text 404 "link is dead", db)
  | .ok target =>
    let db1 := match execIncrement db env.updateFails id with
      | .ok d => d
      | .error _ => db
    (.redirect 302 target, db1)

/-! ## Sequences of requests -/

/-- A request to the service, with what it takes from outside. -/
inductive Op where
  | shorten (env : ShortenEnv) (target : String)
  | resolve (env : ResolveEnv) (id : String)
  deriving DecidableEq, Repr

/-- One request served on a store. -/
def step (db : Store) : Op → Response × Store
  | .shorten env target => shorten db env target
  | .resolve env id => resolve db env id

/-- The store after a sequence of requests, served one after the other. -/
def run (db : Store) (ops : List Op) : Store :=
  ops.foldl (fun d op => (step d op).2) db

/-- The row a lookup by `id` reads. -/
def getLink (db : Store) (id : String) : Option Link :=
  db.find? (fun l => l.id == id)

/-- An environment in which the storage layer answers every statement. -/
def healthy : ResolveEnv := { selectFails := false, updateFails := false }

/-- The store after `k` resolves of `id`, one after the other, on a healthy storage layer. -/
def resolveTimes (id : String) : Nat → Store → Store
  | 0, db => db
  | k + 1, db => resolveTimes id k (resolve db healthy id).2

end UrlShortener

namespace UrlShortener

/-! ## Basic facts about the statements and the handlers -/

theorem any_id_eq_true_iff (db : Store) (id : String) :
    db.any (fun l => l.id == id) = true ↔ id ∈ keys db := by
  simp only [keys, List.any_eq_true, List.mem_map, beq_iff_eq]

theorem getLink_eq_none_iff (db : Store) (id : String) :
    getLink db id = none ↔ id ∉ keys db := by
  simp only [getLink, List.find?_eq_none, keys, List.mem_map, beq_iff_eq]
  constructor
  · rintro h ⟨l, hl, rfl⟩
    exact h l hl rfl
  · intro h l hl e
    exact h ⟨l, hl, e⟩

theorem getLink_some_spec {db : Store} {id : String} {l : Link}
    (h : getLink db id = some l) : l.id = id ∧ l ∈ db := by
  unfold getLink at h
  have h1 := List.find?_some h
  have h2 := List.mem_of_find?_eq_some h
  exact ⟨by simpa using h1, h2⟩

theorem shortened_inj {a b : String} (h : shortened a = shortened b) : a = b := by
  unfold shortened at h
  injection h with _ _ h3
  injection h3 with h4
  have h5 := congrArg String.data h4
  simp only [String.data_append] at h5
  exact String.ext (List.append_cancel_left h5)

/-- The only way `POST /shorten` renders the page of a stored id. -/
theorem shorten_success {db : Store} {env : ShortenEnv} {target i : String}
    (h : (shorten db env target).1 = shortened i) :
    target ≠ "" ∧ shortId env.uuid = some i ∧ env.insertFails = false ∧ i ∉ keys db ∧
      (shorten db env target).2 =
        db ++ [{ id := i, target := target, clicks := 0, created_at := env.now }] := by
  unfold shorten at h ⊢
  by_cases ht : target = ""
  · simp [ht, shortened] at h
  · simp only [beq_iff_eq, ht, if_false] at h ⊢
    cases hid : shortId env.uuid with
    | none => simp [hid, shortened] at h
    | some j =>
      simp only [hid] at h ⊢
      unfold execInsert at h ⊢
      by_cases hf : env.insertFails = true
      · simp [hf, shortened] at h
      · by_cases hk : db.any (fun l => l.id == j) = true
        · simp [hf, hk, shortened] at h
        · simp only [hf, hk, if_false, execCommit] at h ⊢
          have hji : j = i := shortened_inj h
          subst hji
          refine ⟨ht, rfl, by simp [hf], ?_, rfl⟩
          rw [← any_id_eq_true_iff]
          exact hk

/-- The store after `POST /shorten`: untouched, or one fresh row appended. -/
theorem shorten_store (db : Store) (env : ShortenEnv) (target : String) :
    (shorten db env target).2 = db ∨
      ∃ i, (shorten db env target).1 = shortened i ∧ i ∉ keys db ∧
        (shorten db env target).2 =
          db ++ [{ id := i, target := target, clicks := 0, created_at := env.now }] := by
  unfold shorten
  by_cases ht : target = ""
  · simp [ht]
  · simp only [beq_iff_eq, ht, if_false]
    cases hid : shortId env.uuid with
    | none => simp
    | some j =>
      simp only
      unfold execInsert
      by_cases hf : env.insertFails = true
      · simp [hf]
      · by_cases hk : db.any (fun l => l.id == j) = true
        · simp [hf, hk]
        · right
          simp only [hf, hk, if_false, execCommit]
          exact ⟨j, rfl, by rw [← any_id_eq_true_iff]; exact hk, rfl⟩

/-- The store after `GET /:id`: untouched, or the counter of `id` moved by one
behind a redirect. -/
theorem resolve_store (db : Store) (env : ResolveEnv) (id : String) :
    (resolve db env id).2 = db ∨
      ((resolve db env id).2 = bump id db ∧ env.selectFails = false ∧
        env.updateFails = false ∧
        ∃ l, getLink db id = some l ∧ (resolve db env id).1 = .redirect 302 l.target) := by
  unfold resolve queryTarget
  by_cases hs : env.selectFails = true
  · simp [hs]
  · simp only [hs, if_false]
    cases hg : db.find? (fun l => l.id == id) with
    | none => simp
    | some l =>
      simp only
      unfold execIncrement
      by_cases hu : env.updateFails = true
      · simp [hu]
      · right
        simp only [hu, if_false]
        exact ⟨rfl, by simp [hs], by simp [hu], l, hg, rfl⟩

theorem keys_bump (id : String) (db : Store) : keys (bump id db) = keys db := by
  unfold keys bump
  rw [List.map_map]
  apply List.map_congr_left
  intro l _
  by_cases h : l.id = id <;> simp [h]

theorem getLink_append_of_some {db : Store} {id : String} {l : Link} (extra : Store)
    (h : getLink db id = some l) : getLink (db ++ extra) id = some l := by
  unfold getLink at h ⊢
  rw [List.find?_append, h]
  rfl

theorem getLink_append_fresh {db : Store} {id : String} (l : Link) (hid : l.id = id)
    (h : id ∉ keys db) : getLink (db ++ [l]) id = some l := by
  have hn := (getLink_eq_none_iff db id).mpr h
  unfold getLink at hn ⊢
  rw [List.find?_append, hn]
  simp [hid]

theorem getLink_bump (id i : String) (db : Store) :
    getLink (bump id db) i =
      (getLink db i).map fun l =>
        if l.id == id then { l with clicks := incrementClicks l.clicks } else l := by
  have hcomp : ((fun l : Link => l.id == i) ∘
      fun l : Link => if l.id == id then { l with clicks := incrementClicks l.clicks } else l) =
      fun l : Link => l.id == i := by
    funext l
    by_cases hb : l.id = id <;> simp [Function.comp, hb]
  unfold getLink bump
  rw [List.find?_map, hcomp]

theorem le_incrementClicks (c : Nat) : c ≤ incrementClicks c := by
  unfold incrementClicks
  split <;> omega

theorem incrementClicks_ne {c : Nat} (h : incrementClicks c ≠ c) :
    incrementClicks c = c + 1 := by
  unfold incrementClicks at h ⊢
  split
  · rfl
  · rename_i hc
    simp [hc] at h

theorem min_incrementClicks (c k : Nat) (hc : c ≤ clicksLimit) :
    incrementClicks c ≤ clicksLimit ∧
      min (incrementClicks c + k) clicksLimit = min (c + (k + 1)) clicksLimit := by
  unfold incrementClicks
  split
  · refine ⟨by omega, ?_⟩
    rw [Nat.add_assoc, Nat.add_comm 1 k]
  · refine ⟨hc, ?_⟩
    rw [Nat.min_eq_right (by omega), Nat.min_eq_right (by omega)]

/-- One request keeps the row a lookup reads: same id, target and creation time,
a counter that did not go down. -/
theorem getLink_step {db : Store} {i : String} {l : Link} (op : Op)
    (h : getLink db i = some l) :
    ∃ l', getLink (step db op).2 i = some l' ∧ l'.target = l.target ∧ l.clicks ≤ l'.clicks := by
  cases op with
  | shorten env target =>
    simp only [step]
    rcases shorten_store db env target with hs | ⟨j, _, _, hs⟩
    · rw [hs]
      exact ⟨l, h, rfl, le_refl _⟩
    · rw [hs]
      exact ⟨l, getLink_append_of_some _ h, rfl, le_refl _⟩
  | resolve env id =>
    simp only [step]
    rcases resolve_store db env id with hs | ⟨hs, _⟩
    · rw [hs]
      exact ⟨l, h, rfl, le_refl _⟩
    · rw [hs, getLink_bump, h]
      by_cases hb : l.id = id
      · refine ⟨{ l with clicks := incrementClicks l.clicks }, by simp [hb], rfl, ?_⟩
        exact le_incrementClicks _
      · exact ⟨l, by simp [hb], rfl, le_refl _⟩

theorem getLink_run {i : String} (ops : List Op) :
    ∀ {db : Store} {l : Link}, getLink db i = some l →
      ∃ l', getLink (run db ops) i = some l' ∧ l'.target = l.target ∧ l.clicks ≤ l'.clicks := by
  induction ops with
  | nil =>
    intro db l h
    exact ⟨l, h, rfl, le_refl _⟩
  | cons op ops ih =>
    intro db l h
    obtain ⟨l1, h1, ht1, hc1⟩ := getLink_step op h
    obtain ⟨l2, h2, ht2, hc2⟩ := ih h1
    exact ⟨l2, by simpa [run] using h2, ht2.trans ht1, le_trans hc1 hc2⟩

theorem resolve_of_getLink {db : Store} {i : String} {l : Link} (env : ResolveEnv)
    (h : getLink db i = some l) (hs : env.selectFails = false) :
    (resolve db env i).1 = .redirect 302 l.target := by
  unfold getLink at h
  simp [resolve, queryTarget, hs, h]

theorem resolve_healthy_store (db : Store) (i : String) (h : i ∈ keys db) :
    (resolve db healthy i).2 = bump i db := by
  cases hg : getLink db i with
  | none => exact absurd h ((getLink_eq_none_iff db i).mp hg)
  | some l =>
    unfold getLink at hg
    simp [resolve, queryTarget, execIncrement, healthy, hg]

theorem getLink_resolveTimes {i : String} (k : Nat) :
    ∀ {db : Store} {l : Link}, getLink db i = some l → l.clicks ≤ clicksLimit →
      getLink (resolveTimes i k db) i =
        some { l with clicks := min (l.clicks + k) clicksLimit } := by
  induction k with
  | zero =>
    intro db l h hc
    simp only [resolveTimes, Nat.add_zero, Nat.min_eq_left hc]
    exact h
  | succ k ih =>
    intro db l h hc
    have hi := (getLink_some_spec h).1
    have hk : i ∈ keys db := by
      by_contra hn
      rw [(getLink_eq_none_iff db i).mpr hn] at h
      cases h
    have h1 : getLink (resolve db healthy i).2 i =
        some { l with clicks := incrementClicks l.clicks } := by
      rw [resolve_healthy_store db i hk, getLink_bump, h]
      simp [hi]
    obtain ⟨hle, hmin⟩ := min_incrementClicks l.clicks k hc
    have h2 := ih h1 hle
    simp only [resolveTimes]
    rw [h2]
    simp only [hmin]

/-- The row of a link just created, after `k` resolves on a healthy storage layer. -/
theorem getLink_resolveTimes_created {db : Store} {env : ShortenEnv} {target i : String}
    (h : (shorten db env target).1 = shortened i) (k : Nat) :
    getLink (resolveTimes i k (shorten db env target).2) i =
      some { id := i, target := target, clicks := min k clicksLimit,
             created_at := env.now } := by
  obtain ⟨_, _, _, hfresh, hstore⟩ := shorten_success h
  have h0 : getLink (shorten db env target).2 i =
      some { id := i, target := target, clicks := 0, created_at := env.now } := by
    rw [hstore]
    exact getLink_append_fresh _ rfl hfresh
  have hk := getLink_resolveTimes k h0 (Nat.zero_le _)
  simp only [Nat.zero_add] at hk
  exact hk

theorem keys_step_nodup {db : Store} (op : Op) (h : (keys db).Nodup) :
    (keys (step db op).2).Nodup := by
  cases op with
  | shorten env target =>
    simp only [step]
    rcases shorten_store db env target with hs | ⟨j, _, hj, hs⟩
    · rw [hs]
      exact h
    · rw [hs]
      simp only [keys, List.map_append, List.map_cons, List.map_nil]
      rw [List.nodup_append]
      refine ⟨h, List.nodup_singleton _, ?_⟩
      intro a ha hb
      rw [List.mem_singleton] at hb
      subst hb
      exact hj ha
  | resolve env id =>
    simp only [step]
    rcases resolve_store db env id with hs | ⟨hs, _⟩
    · rw [hs]
      exact h
    · rw [hs, keys_bump]
      exact h

theorem keys_run_nodup (ops : List Op) :
    ∀ {db : Store}, (keys db).Nodup → (keys (run db ops)).Nodup := by
  induction ops with
  | nil =>
    intro db h
    exact h
  | cons op ops ih =>
    intro db h
    have := ih (keys_step_nodup op h)
    simpa [run] using this

/-! ## Round trip, click count, uniqueness, immutability -/

/-- C1, as stated, fails: `POST /shorten` succeeds and returns id `123e4567`, and
the `GET /123e4567` that follows, on whose `SELECT` the storage layer errors, is
not answered with a redirect to the target. -/
theorem round_trip_needs_lookup :
    (shorten [] ⟨"123e4567-e89b-12d3-a456-426614174000", 5, false⟩
        "https://example.com").1 = shortened "123e4567" ∧
      (resolve
        (shorten [] ⟨"123e4567-e89b-12d3-a456-426614174000", 5, false⟩
          "https://example.com").2
        { selectFails := true, updateFails := false } "123e4567").1 ≠
        .redirect 302 "https://example.com" := by
  decide

/-- C1, amended. For every target and every store, when `POST /shorten` succeeds
and returns id `i` (which it does only for a non-empty target), a later `GET /i`
on whose `SELECT` the storage layer does not error, sent right after or after any
further requests, ends in the call `c.Redirect(302, t)` with `t` exactly that
target. -/
theorem shorten_resolve_round_trip (db : Store) (env : ShortenEnv) (target i : String)
    (ops : List Op) (renv : ResolveEnv)
    (h : (shorten db env target).1 = shortened i) (hs : renv.selectFails = false) :
    target ≠ "" ∧
      (resolve (run (shorten db env target).2 ops) renv i).1 = .redirect 302 target := by
  obtain ⟨hne, _, _, hfresh, hstore⟩ := shorten_success h
  refine ⟨hne, ?_⟩
  have h0 : getLink (shorten db env target).2 i =
      some { id := i, target := target, clicks := 0, created_at := env.now } := by
    rw [hstore]
    exact getLink_append_fresh _ rfl hfresh
  obtain ⟨l', h1, ht, _⟩ := getLink_run ops h0
  rw [resolve_of_getLink renv h1 hs, ht]

theorem shorten_resolve_round_trip_witness :
    "https://example.com" ≠ "" ∧
      (resolve
        (run (shorten [] ⟨"123e4567-e89b-12d3-a456-426614174000", 5, false⟩
          "https://example.com").2 [.resolve healthy "123e4567"])
        { selectFails := false, updateFails := true } "123e4567").1 =
      .redirect 302 "https://example.com" :=
  shorten_resolve_round_trip [] ⟨"123e4567-e89b-12d3-a456-426614174000", 5, false⟩
    "https://example.com" "123e4567" [.resolve healthy "123e4567"]
    { selectFails := false, updateFails := true } (by decide) (by decide)

/-- C2, as stated, fails: the link is just created and resolved 2^63 + 1 times on
a storage layer that answers every statement; the number in `clicks` is then 2^63
and not 2^63 + 1. -/
theorem clicks_stop_at_limit :
    (shorten [] ⟨"123e4567-e89b-12d3-a456-426614174000", 5, false⟩
        "https://example.com").1 = shortened "123e4567" ∧
      (getLink (resolveTimes "123e4567" 9223372036854775809
        (shorten [] ⟨"123e4567-e89b-12d3-a456-426614174000", 5, false⟩
          "https://example.com").2) "123e4567").map Link.clicks =
        some 9223372036854775808 ∧
      (getLink (resolveTimes "123e4567" 9223372036854775809
        (shorten [] ⟨"123e4567-e89b-12d3-a456-426614174000", 5, false⟩
          "https://example.com").2) "123e4567").map Link.clicks ≠
        some 9223372036854775809 := by
  have h : (shorten [] ⟨"123e4567-e89b-12d3-a456-426614174000", 5, false⟩
      "https://example.com").1 = shortened "123e4567" := by decide
  have hk := getLink_resolveTimes_created h 9223372036854775809
  have hmin : min 9223372036854775809 clicksLimit = 9223372036854775808 := by
    unfold clicksLimit
    exact Nat.min_eq_right (by omega)
  rw [hmin] at hk
  refine ⟨h, ?_, ?_⟩
  · rw [hk]
    rfl
  · rw [hk]
    simp

/-- C2, amended. For every link just created by a successful `POST /shorten` and
every natural number `k`, after `k` resolves of its id, one after the other, on a
storage layer that answers every statement, the row of that id has `clicks` equal
to the smaller of `k` and 2^63: exactly `k` for every `k` up to 2^63 (so 0 when
fresh, and one more after each resolve up to there); and the next resolve is
again a 302 redirect call for the target. -/
theorem clicks_after_k_resolves (db : Store) (env : ShortenEnv) (target i : String)
    (h : (shorten db env target).1 = shortened i) (k : Nat) :
    getLink (resolveTimes i k (shorten db env target).2) i =
        some { id := i, target := target, clicks := min k clicksLimit,
               created_at := env.now } ∧
      (k ≤ clicksLimit →
        (getLink (resolveTimes i k (shorten db env target).2) i).map Link.clicks = some k) ∧
      (resolve (resolveTimes i k (shorten db env target).2) healthy i).1 =
        .redirect 302 target := by
  have hk := getLink_resolveTimes_created h k
  refine ⟨hk, ?_, by rw [resolve_of_getLink healthy hk rfl]⟩
  intro hle
  rw [hk]
  simp [Nat.min_eq_left hle]

theorem clicks_after_k_resolves_witness :
    getLink (resolveTimes "123e4567" 3
        (shorten [] ⟨"123e4567-e89b-12d3-a456-426614174000", 5, false⟩
          "https://example.com").2) "123e4567" =
        some { id := "123e4567", target := "https://example.com",
               clicks := min 3 clicksLimit, created_at := 5 } ∧
      (3 ≤ clicksLimit →
        (getLink (resolveTimes "123e4567" 3
          (shorten [] ⟨"123e4567-e89b-12d3-a456-426614174000", 5, false⟩
            "https://example.com").2) "123e4567").map Link.clicks = some 3) ∧
      (resolve (resolveTimes "123e4567" 3
        (shorten [] ⟨"123e4567-e89b-12d3-a456-426614174000", 5, false⟩
          "https://example.com").2) healthy "123e4567").1 =
        .redirect 302 "https://example.com" :=
  clicks_after_k_resolves [] ⟨"123e4567-e89b-12d3-a456-426614174000", 5, false⟩
    "https://example.com" "123e4567" (by decide) 3

/-- C6. In every store reached from the empty store by any sequence of shorten
and resolve requests, whatever came from outside, no two rows share an id; and
for every store, whenever `POST /shorten` succeeds, the id it returns was not a
key of the store before the request. -/
theorem ids_unique :
    (∀ ops : List Op, (keys (run [] ops)).Nodup) ∧
      (∀ (db : Store) (env : ShortenEnv) (target i : String),
        (shorten db env target).1 = shortened i → i ∉ keys db) :=
  ⟨fun ops => keys_run_nodup ops List.nodup_nil,
    fun _ _ _ _ h => (shorten_success h).2.2.2.1⟩

theorem ids_unique_witness :
    (keys (run []
        [.shorten ⟨"123e4567-e89b-12d3-a456-426614174000", 5, false⟩ "https://a.example",
         .shorten ⟨"123e4567-e89b-12d3-a456-426614174000", 6, false⟩ "https://b.example",
         .resolve healthy "123e4567"])).Nodup ∧
      "123e4567" ∉ keys [] :=
  ⟨ids_unique.1 _,
    ids_unique.2 [] ⟨"123e4567-e89b-12d3-a456-426614174000", 5, false⟩ "https://a.example"
      "123e4567" (by decide)⟩

theorem chars_of_length_36 (cs : List Char) (h : cs.length = 36) :
    ∃ c0 c1 c2 c3 c4 c5 c6 c7 c8 c9 c10 c11 c12 c13 c14 c15 c16 c17 c18 c19 c20 c21 c22 c23
      c24 c25 c26 c27 c28 c29 c30 c31 c32 c33 c34 c35 : Char,
      cs = [c0, c1, c2, c3, c4, c5, c6, c7, c8, c9, c10, c11, c12, c13, c14, c15, c16, c17,
        c18, c19, c20, c21, c22, c23, c24, c25, c26, c27, c28, c29, c30, c31, c32, c33, c34,
        c35] := by
  rcases cs with _ | ⟨c0, _ | ⟨c1, _ | ⟨c2, _ | ⟨c3, _ | ⟨c4, _ | ⟨c5, _ | ⟨c6, _ | ⟨c7,
    _ | ⟨c8, _ | ⟨c9, _ | ⟨c10, _ | ⟨c11, _ | ⟨c12, _ | ⟨c13, _ | ⟨c14, _ | ⟨c15, _ | ⟨c16,
    _ | ⟨c17, _ | ⟨c18, _ | ⟨c19, _ | ⟨c20, _ | ⟨c21, _ | ⟨c22, _ | ⟨c23, _ | ⟨c24, _ | ⟨c25,
    _ | ⟨c26, _ | ⟨c27, _ | ⟨c28, _ | ⟨c29, _ | ⟨c30, _ | ⟨c31, _ | ⟨c32, _ | ⟨c33, _ | ⟨c34,
    _ | ⟨c35, _ | ⟨x, r⟩⟩⟩⟩⟩⟩⟩⟩⟩⟩⟩⟩⟩⟩⟩⟩⟩⟩⟩⟩⟩⟩⟩⟩⟩⟩⟩⟩⟩⟩⟩⟩⟩⟩⟩⟩⟩
  all_goals first
    | exact ⟨_, _, _, _, _, _, _, _, _, _, _, _, _, _, _, _, _, _, _, _, _, _, _, _, _, _, _, _,
        _, _, _, _, _, _, _, _, rfl⟩
    | (simp only [List.length_cons, List.length_nil] at h; omega)

theorem hex_ne_dash {c : Char} (h : isHexDigit c = true) : (c != '-') = true := by
  by_cases hc : c = '-'
  · subst hc
    revert h
    decide
  · simpa using hc

/-! ## Error outcomes of the two handlers -/

/-- C3. For every store, every id that is not a key of the store and whatever the
storage layer does, `GET /:id` answers 404 "link is dead" and the store after the
request is the store before it: no row added, removed or changed. -/
theorem resolve_unknown_id_not_found (db : Store) (env : ResolveEnv) (id : String)
    (h : id ∉ keys db) : resolve db env id = (.text 404 "link is dead", db) := by
  have hg : db.find? (fun l => l.id == id) = none := (getLink_eq_none_iff db id).mpr h
  unfold resolve queryTarget
  by_cases hs : env.selectFails = true
  · simp [hs]
  · simp [hs, hg]

theorem resolve_unknown_id_not_found_witness :
    "doesNotExist" ∉ keys [⟨"123e4567", "https://example.com", 3, 10⟩] ∧
      resolve [⟨"123e4567", "https://example.com", 3, 10⟩] healthy "doesNotExist" =
        (.text 404 "link is dead", [⟨"123e4567", "https://example.com", 3, 10⟩]) :=
  ⟨by decide, resolve_unknown_id_not_found _ healthy "doesNotExist" (by decide)⟩

/-- C4. For every store and whatever comes from outside, `POST /shorten` with the
empty target answers 400 "no url" and leaves the store as it was: no row is
inserted. -/
theorem shorten_empty_target_rejected (db : Store) (env : ShortenEnv) :
    shorten db env "" = (.text 400 "no url", db) := by
  simp [shorten]

/-- C5, as stated, fails: with the storage layer answering, a candidate id that is
already a key makes `POST /shorten` answer 500 "db, error"; nothing is retried and
no row is stored for the new target. -/
theorem shorten_conflict_surfaces :
    shortId "123e4567-e89b-12d3-a456-426614174000" = some "123e4567" ∧
      "123e4567" ∈ keys [⟨"123e4567", "https://a.example", 0, 1⟩] ∧
      shorten [⟨"123e4567", "https://a.example", 0, 1⟩]
          ⟨"123e4567-e89b-12d3-a456-426614174000", 2, false⟩ "https://b.example" =
        (.text 500 "db, error", [⟨"123e4567", "https://a.example", 0, 1⟩]) := by
  decide

/-- C5, amended. For every non-empty target and every store, `POST /shorten` sends
its single `INSERT` with the one candidate id it computed and never retries: when
that id is already a key the answer is 500 "db, error" and the store is unchanged;
and the answer is 500 exactly when the `INSERT` fails, by a conflict or by any
other failure of the storage layer. -/
theorem shorten_single_attempt (db : Store) (env : ShortenEnv) (target i : String)
    (ht : target ≠ "") (hi : shortId env.uuid = some i) :
    (i ∈ keys db → shorten db env target = (.text 500 "db, error", db)) ∧
      ((shorten db env target).1 = .text 500 "db, error" ↔
        (env.insertFails = true ∨ i ∈ keys db)) := by
  rw [← any_id_eq_true_iff]
  unfold shorten execInsert
  simp only [beq_iff_eq, ht, if_false, hi]
  by_cases hf : env.insertFails = true
  · simp [hf]
  · by_cases hk : db.any (fun l => l.id == i) = true
    · simp [hf, hk]
    · simp [hf, hk, shortened, execCommit]

theorem shorten_single_attempt_witness :
    ("123e4567" ∈ keys [⟨"123e4567", "https://a.example", 0, 1⟩] →
        shorten [⟨"123e4567", "https://a.example", 0, 1⟩]
            ⟨"123e4567-e89b-12d3-a456-426614174000", 2, false⟩ "https://b.example" =
          (.text 500 "db, error", [⟨"123e4567", "https://a.example", 0, 1⟩])) ∧
      ((shorten [⟨"123e4567", "https://a.example", 0, 1⟩]
            ⟨"123e4567-e89b-12d3-a456-426614174000", 2, false⟩ "https://b.example").1 =
          .text 500 "db, error" ↔
        ((⟨"123e4567-e89b-12d3-a456-426614174000", 2, false⟩ : ShortenEnv).insertFails = true ∨
          "123e4567" ∈ keys [⟨"123e4567", "https://a.example", 0, 1⟩])) :=
  shorten_single_attempt [⟨"123e4567", "https://a.example", 0, 1⟩]
    ⟨"123e4567-e89b-12d3-a456-426614174000", 2, false⟩ "https://b.example" "123e4567"
    (by decide) (by decide)

/-- C7, the code at the failing input: the id is a key of the store and the storage
layer errors on the `SELECT`; `GET /:id` answers 404 "link is dead", the answer it
gives for an id that does not exist, not a 500. -/
theorem resolve_storage_error_is_404 :
    "123e4567" ∈ keys [⟨"123e4567", "https://example.com", 0, 1⟩] ∧
      resolve [⟨"123e4567", "https://example.com", 0, 1⟩]
          { selectFails := true, updateFails := false } "123e4567" =
        (.text 404 "link is dead", [⟨"123e4567", "https://example.com", 0, 1⟩]) ∧
      (resolve [⟨"123e4567", "https://example.com", 0, 1⟩]
          { selectFails := true, updateFails := false } "123e4567").1 =
        (resolve [] healthy "123e4567").1 := by
  decide

/-- C8. For every store and every id that is a key of it, when the `SELECT`
succeeds `GET /:id` answers with a 302 redirect to the target stored under that
id, whether the `UPDATE` of the counter succeeds or fails; when the `UPDATE` fails
the store is unchanged, and when it succeeds the store is the one the `UPDATE`
produced. -/
theorem resolve_redirect_decoupled (db : Store) (id : String) (h : id ∈ keys db) :
    ∃ l, getLink db id = some l ∧ l ∈ db ∧ l.id = id ∧
      ∀ updateFails : Bool,
        (resolve db { selectFails := false, updateFails := updateFails } id).1 =
            .redirect 302 l.target ∧
          (updateFails = true →
            (resolve db { selectFails := false, updateFails := updateFails } id).2 = db) ∧
          (updateFails = false →
            (resolve db { selectFails := false, updateFails := updateFails } id).2 =
              bump id db) := by
  cases hg : getLink db id with
  | none => exact absurd h ((getLink_eq_none_iff db id).mp hg)
  | some l =>
    obtain ⟨h1, h2⟩ := getLink_some_spec hg
    refine ⟨l, rfl, h2, h1, ?_⟩
    intro u
    unfold getLink at hg
    cases u <;> simp [resolve, queryTarget, execIncrement, hg]

theorem resolve_redirect_decoupled_witness :
    ∃ l, getLink [⟨"123e4567", "https://example.com", 4, 1⟩] "123e4567" = some l ∧
      l ∈ [(⟨"123e4567", "https://example.com", 4, 1⟩ : Link)] ∧ l.id = "123e4567" ∧
      ∀ updateFails : Bool,
        (resolve [⟨"123e4567", "https://example.com", 4, 1⟩]
            { selectFails := false, updateFails := updateFails } "123e4567").1 =
            .redirect 302 l.target ∧
          (updateFails = true →
            (resolve [⟨"123e4567", "https://example.com", 4, 1⟩]
              { selectFails := false, updateFails := updateFails } "123e4567").2 =
              [⟨"123e4567", "https://example.com", 4, 1⟩]) ∧
          (updateFails = false →
            (resolve [⟨"123e4567", "https://example.com", 4, 1⟩]
              { selectFails := false, updateFails := updateFails } "123e4567").2 =
              bump "123e4567" [⟨"123e4567", "https://example.com", 4, 1⟩]) :=
  resolve_redirect_decoupled [⟨"123e4567", "https://example.com", 4, 1⟩] "123e4567"
    (by decide)

/-- C9. For every store, every request (shorten with any target, resolve with any
id, whatever the storage layer does) and every row present before it, a row with
the same id, target and creation time is present after it, with a counter that
is not smaller; the counter differs only after a resolve of that row's own id
that answered with the redirect and whose `SELECT` and `UPDATE` both succeeded,
and then by exactly one; after a shorten the row itself is still there,
unchanged. -/
theorem links_immutable (db : Store) (op : Op) (l : Link) (hl : l ∈ db) :
    ∃ l', l' ∈ (step db op).2 ∧ l'.id = l.id ∧ l'.target = l.target ∧
      l'.created_at = l.created_at ∧ l.clicks ≤ l'.clicks ∧
      (l'.clicks ≠ l.clicks →
        ∃ env t, op = .resolve env l.id ∧ env.selectFails = false ∧
          env.updateFails = false ∧ (step db op).1 = .redirect 302 t ∧
          l'.clicks = l.clicks + 1) ∧
      (∀ env target, op = .shorten env target → l' = l) := by
  cases op with
  | shorten env target =>
    refine ⟨l, ?_, rfl, rfl, rfl, le_refl _, fun hne => absurd rfl hne, fun _ _ _ => rfl⟩
    simp only [step]
    rcases shorten_store db env target with hs | ⟨j, _, _, hs⟩
    · rw [hs]
      exact hl
    · rw [hs]
      exact List.mem_append_left _ hl
  | resolve env id =>
    simp only [step]
    rcases resolve_store db env id with hs | ⟨hs, hsel, hupd, l0, _, hr⟩
    · refine ⟨l, ?_, rfl, rfl, rfl, le_refl _, fun hne => absurd rfl hne, ?_⟩
      · rw [hs]
        exact hl
      · intro _ _ he
        cases he
    · by_cases hid : l.id = id
      · refine ⟨{ l with clicks := incrementClicks l.clicks }, ?_, rfl, rfl, rfl,
          le_incrementClicks _, ?_, ?_⟩
        · rw [hs]
          unfold bump
          refine List.mem_map.mpr ⟨l, hl, ?_⟩
          simp [hid]
        · intro hne
          exact ⟨env, l0.target, by rw [hid], hsel, hupd, hr, incrementClicks_ne hne⟩
        · intro _ _ he
          cases he
      · refine ⟨l, ?_, rfl, rfl, rfl, le_refl _, fun hne => absurd rfl hne, ?_⟩
        · rw [hs]
          unfold bump
          refine List.mem_map.mpr ⟨l, hl, ?_⟩
          simp [hid]
        · intro _ _ he
          cases he

theorem links_immutable_witness :
    ∃ l', l' ∈ (step [⟨"123e4567", "https://example.com", 4, 1⟩]
        (.resolve healthy "123e4567")).2 ∧
      l'.id = "123e4567" ∧ l'.target = "https://example.com" ∧ l'.created_at = 1 ∧
      4 ≤ l'.clicks ∧
      (l'.clicks ≠ 4 →
        ∃ env t, Op.resolve healthy "123e4567" = .resolve env "123e4567" ∧
          env.selectFails = false ∧ env.updateFails = false ∧
          (step [⟨"123e4567", "https://example.com", 4, 1⟩]
            (.resolve healthy "123e4567")).1 = .redirect 302 t ∧
          l'.clicks = 4 + 1) ∧
      (∀ env target, Op.resolve healthy "123e4567" = .shorten env target →
        l' = ⟨"123e4567", "https://example.com", 4, 1⟩) :=
  links_immutable [⟨"123e4567", "https://example.com", 4, 1⟩] (.resolve healthy "123e4567")
    ⟨"123e4567", "https://example.com", 4, 1⟩ (by decide)

/-! ## Identifier shape -/

/-- C10. For every canonical UUID text (36 characters, `-` at positions 8, 13, 18
and 23, hexadecimal digits elsewhere), dropping every `-` leaves 32 characters, so
the slice `[:8]` is in range: the short id is defined, has exactly 8 characters,
each a hexadecimal digit and none a `-`, and it is the text's own first 8
characters. -/
theorem shortId_of_canonical_uuid (u : String) (h : isCanonicalUUID u = true) :
    (removeDashes u).length = 32 ∧
      ∃ s, shortId u = some s ∧ s.length = 8 ∧
        (∀ c ∈ s.data, isHexDigit c = true ∧ c ≠ '-') ∧ sliceTo u 8 = some s := by
  obtain ⟨cs⟩ := u
  unfold isCanonicalUUID at h
  simp only [Bool.and_eq_true, beq_iff_eq, List.all_eq_true, List.mem_range] at h
  obtain ⟨hlen, hall⟩ := h
  obtain ⟨c0, c1, c2, c3, c4, c5, c6, c7, c8, c9, c10, c11, c12, c13, c14, c15, c16, c17,
    c18, c19, c20, c21, c22, c23, c24, c25, c26, c27, c28, c29, c30, c31, c32, c33, c34, c35,
    rfl⟩ := chars_of_length_36 cs hlen
  have e0 : isHexDigit c0 = true := by simpa [dashPositions] using hall 0 (by omega)
  have e1 : isHexDigit c1 = true := by simpa [dashPositions] using hall 1 (by omega)
  have e2 : isHexDigit c2 = true := by simpa [dashPositions] using hall 2 (by omega)
  have e3 : isHexDigit c3 = true := by simpa [dashPositions] using hall 3 (by omega)
  have e4 : isHexDigit c4 = true := by simpa [dashPositions] using hall 4 (by omega)
  have e5 : isHexDigit c5 = true := by simpa [dashPositions] using hall 5 (by omega)
  have e6 : isHexDigit c6 = true := by simpa [dashPositions] using hall 6 (by omega)
  have e7 : isHexDigit c7 = true := by simpa [dashPositions] using hall 7 (by omega)
  have e8 : c8 = '-' := by simpa [dashPositions] using hall 8 (by omega)
  have e9 : isHexDigit c9 = true := by simpa [dashPositions] using hall 9 (by omega)
  have e10 : isHexDigit c10 = true := by simpa [dashPositions] using hall 10 (by omega)
  have e11 : isHexDigit c11 = true := by simpa [dashPositions] using hall 11 (by omega)
  have e12 : isHexDigit c12 = true := by simpa [dashPositions] using hall 12 (by omega)
  have e13 : c13 = '-' := by simpa [dashPositions] using hall 13 (by omega)
  have e14 : isHexDigit c14 = true := by simpa [dashPositions] using hall 14 (by omega)
  have e15 : isHexDigit c15 = true := by simpa [dashPositions] using hall 15 (by omega)
  have e16 : isHexDigit c16 = true := by simpa [dashPositions] using hall 16 (by omega)
  have e17 : isHexDigit c17 = true := by simpa [dashPositions] using hall 17 (by omega)
  have e18 : c18 = '-' := by simpa [dashPositions] using hall 18 (by omega)
  have e19 : isHexDigit c19 = true := by simpa [dashPositions] using hall 19 (by omega)
  have e20 : isHexDigit c20 = true := by simpa [dashPositions] using hall 20 (by omega)
  have e21 : isHexDigit c21 = true := by simpa [dashPositions] using hall 21 (by omega)
  have e22 : isHexDigit c22 = true := by simpa [dashPositions] using hall 22 (by omega)
  have e23 : c23 = '-' := by simpa [dashPositions] using hall 23 (by omega)
  have e24 : isHexDigit c24 = true := by simpa [dashPositions] using hall 24 (by omega)
  have e25 : isHexDigit c25 = true := by simpa [dashPositions] using hall 25 (by omega)
  have e26 : isHexDigit c26 = true := by simpa [dashPositions] using hall 26 (by omega)
  have e27 : isHexDigit c27 = true := by simpa [dashPositions] using hall 27 (by omega)
  have e28 : isHexDigit c28 = true := by simpa [dashPositions] using hall 28 (by omega)
  have e29 : isHexDigit c29 = true := by simpa [dashPositions] using hall 29 (by omega)
  have e30 : isHexDigit c30 = true := by simpa [dashPositions] using hall 30 (by omega)
  have e31 : isHexDigit c31 = true := by simpa [dashPositions] using hall 31 (by omega)
  have e32 : isHexDigit c32 = true := by simpa [dashPositions] using hall 32 (by omega)
  have e33 : isHexDigit c33 = true := by simpa [dashPositions] using hall 33 (by omega)
  have e34 : isHexDigit c34 = true := by simpa [dashPositions] using hall 34 (by omega)
  have e35 : isHexDigit c35 = true := by simpa [dashPositions] using hall 35 (by omega)
  subst e8
  subst e13
  subst e18
  subst e23
  have hfilter : (removeDashes ⟨[c0, c1, c2, c3, c4, c5, c6, c7, '-', c9, c10, c11, c12, '-', c14,
      c15, c16, c17, '-', c19, c20, c21, c22, '-', c24, c25, c26, c27, c28, c29, c30, c31, c32,
      c33, c34, c35]⟩).data = [c0, c1, c2, c3, c4, c5, c6, c7, c9, c10, c11, c12, c14, c15, c16,
      c17, c19, c20, c21, c22, c24, c25, c26, c27, c28, c29, c30, c31, c32, c33, c34, c35] := by
    simp only [removeDashes, List.filter_cons, List.filter_nil,
      hex_ne_dash e0, hex_ne_dash e1, hex_ne_dash e2, hex_ne_dash e3, hex_ne_dash e4,
      hex_ne_dash e5, hex_ne_dash e6, hex_ne_dash e7, hex_ne_dash e9, hex_ne_dash e10,
      hex_ne_dash e11, hex_ne_dash e12, hex_ne_dash e14, hex_ne_dash e15, hex_ne_dash e16,
      hex_ne_dash e17, hex_ne_dash e19, hex_ne_dash e20, hex_ne_dash e21, hex_ne_dash e22,
      hex_ne_dash e24, hex_ne_dash e25, hex_ne_dash e26, hex_ne_dash e27, hex_ne_dash e28,
      hex_ne_dash e29, hex_ne_dash e30, hex_ne_dash e31, hex_ne_dash e32, hex_ne_dash e33,
      hex_ne_dash e34, hex_ne_dash e35]
    rfl
  refine ⟨?_, ⟨[c0, c1, c2, c3, c4, c5, c6, c7]⟩, ?_, rfl, ?_, ?_⟩
  · simp only [String.length, hfilter, List.length_cons, List.length_nil]
  · simp only [shortId, sliceTo, String.length, hfilter, List.length_cons, List.length_nil]
    rfl
  · intro c hc
    have hc' : c = c0 ∨ c = c1 ∨ c = c2 ∨ c = c3 ∨ c = c4 ∨ c = c5 ∨ c = c6 ∨ c = c7 := by
      simpa using hc
    have hex : isHexDigit c = true := by
      rcases hc' with r | r | r | r | r | r | r | r <;> subst r <;> assumption
    exact ⟨hex, by simpa using hex_ne_dash hex⟩
  · simp only [sliceTo, String.length, List.length_cons, List.length_nil]
    rfl

theorem shortId_of_canonical_uuid_witness :
    (removeDashes "123e4567-e89b-12d3-a456-426614174000").length = 32 ∧
      ∃ s, shortId "123e4567-e89b-12d3-a456-426614174000" = some s ∧ s.length = 8 ∧
        (∀ c ∈ s.data, isHexDigit c = true ∧ c ≠ '-') ∧
        sliceTo "123e4567-e89b-12d3-a456-426614174000" 8 = some s :=
  shortId_of_canonical_uuid "123e4567-e89b-12d3-a456-426614174000" (by decide)

end UrlShortener
